import Mathlib

/-!
Shallow embedding of the filter-and-aggregate query engine of the
Chicago crime dashboard (`src/dashboard/app.py`), together with proofs
of the specified properties.

Modelling conventions:
* A pandas dataframe row becomes a `Record`; the dataframe becomes a
  `List Record` (ordered, immutable).
* `Year` is an `Int`.  `Primary Type` is `Option String` (`none` models a
  NaN/null cell; the pandas comparison `series == value` is `False` on
  NaN, which `Option.some` injectivity reproduces).
* `Latitude`/`Longitude` are `Option Int`: the engine never performs
  arithmetic on coordinates, it only tests them for null (`dropna`) and
  passes the values through, so an opaque discrete carrier is a faithful
  model of the float payload.
* `pd.DataFrame.sample(n, random_state=42)` draws `n` rows without
  replacement, driven entirely by the fixed seed; it is modelled by a
  seeded linear-congruential selection (`pdSample`), a pure function of
  (n, seed, rows) exactly as the seeded pandas sampler is.
* `groupby("Year").size()` sorts group keys ascending and
  `value_counts()` sorts counts descending; both sorts are modelled with
  `List.insertionSort` (the spec leaves the tie-break order open).
-/

namespace Dashboard

/-- One row of the loaded CSV, as used by the engine
(`df` in `src/dashboard/app.py`).  Other columns are opaque. -/
structure Record where
  year : Int
  primaryType : Option String
  latitude : Option Int
  longitude : Option Int
deriving DecidableEq, Repr

/-- The `Year` column of a table. -/
def yearsOf (df : List Record) : List Int := df.map (·.year)

/-- `filtered_df` (app.py lines 89–97): keep rows with
`year_range[0] <= Year <= year_range[1]`, then, when the selected crime
is not the sentinel `"All"`, keep rows with `Primary Type == selected_crime`
(a null `Primary Type` compares unequal, as in pandas). -/
def filtered_df (df : List Record) (yearMin yearMax : Int) (selectedCrime : String) :
    List Record :=
  let byYear := df.filter fun r => decide (yearMin ≤ r.year) && decide (r.year ≤ yearMax)
  if selectedCrime = "All" then byYear
  else byYear.filter fun r => decide (r.primaryType = some selectedCrime)

/-- The row predicate that `filtered_df` implements. -/
def matchesFilter (yearMin yearMax : Int) (selectedCrime : String) (r : Record) : Prop :=
  yearMin ≤ r.year ∧ r.year ≤ yearMax ∧
    (selectedCrime = "All" ∨ r.primaryType = some selectedCrime)

instance (yearMin yearMax : Int) (c : String) :
    DecidablePred (matchesFilter yearMin yearMax c) := by
  intro r
  unfold matchesFilter
  infer_instance

theorem filtered_df_eq_filter (df : List Record) (a b : Int) (c : String) :
    filtered_df df a b c = df.filter fun r => decide (matchesFilter a b c r) := by
  unfold filtered_df matchesFilter
  by_cases hc : c = "All"
  · simp only [hc, if_pos rfl]
    apply List.filter_congr
    intro r _
    simp [decide_eq_true_iff]
  · simp only [if_neg hc, List.filter_filter]
    apply List.filter_congr
    intro r _
    simp only [decide_eq_true_iff, hc, false_or]
    cases h1 : decide (a ≤ r.year) <;> cases h2 : decide (r.year ≤ b) <;>
      cases h3 : decide (r.primaryType = some c) <;> simp_all

theorem mem_filtered_df (df : List Record) (a b : Int) (c : String) (r : Record) :
    r ∈ filtered_df df a b c ↔ r ∈ df ∧ matchesFilter a b c r := by
  rw [filtered_df_eq_filter, List.mem_filter]
  simp [decide_eq_true_iff]

theorem filtered_df_sublist (df : List Record) (a b : Int) (c : String) :
    (filtered_df df a b c).Sublist df := by
  rw [filtered_df_eq_filter]
  exact List.filter_sublist df

/-- C1: a record of the dataset is in the filtered result iff its year is
in `[year_min, year_max]` and the category is the `"All"` sentinel or the
record's `Primary Type` equals the selected category. -/
theorem filter_correctness (df : List Record) (a b : Int) (c : String)
    (r : Record) (hr : r ∈ df) :
    r ∈ filtered_df df a b c ↔
      (a ≤ r.year ∧ r.year ≤ b ∧ (c = "All" ∨ r.primaryType = some c)) := by
  rw [mem_filtered_df]
  unfold matchesFilter
  simp [hr]

theorem filter_correctness_witness :
    (⟨2019, some "THEFT", none, none⟩ : Record) ∈
        [(⟨2019, some "THEFT", none, none⟩ : Record)] ∧
      ((⟨2019, some "THEFT", none, none⟩ : Record) ∈
          filtered_df [⟨2019, some "THEFT", none, none⟩] 2018 2020 "All" ↔
        ((2018 : Int) ≤ 2019 ∧ (2019 : Int) ≤ 2020 ∧
          ("All" = "All" ∨ some "THEFT" = some "All"))) := by
  refine ⟨by decide, ?_⟩
  exact filter_correctness [⟨2019, some "THEFT", none, none⟩] 2018 2020 "All"
    ⟨2019, some "THEFT", none, none⟩ (by decide)

/-- C2: the filtered result is a subsequence of the dataset in the original
row order, and an empty filtered result is a legal outcome (here: a filter
state matching no row yields `[]`, not an error). -/
theorem filter_sublist_and_empty_ok :
    (∀ (df : List Record) (a b : Int) (c : String),
        (filtered_df df a b c).Sublist df) ∧
      filtered_df [⟨2019, some "THEFT", none, none⟩] 2021 2022 "All" = [] := by
  constructor
  · exact filtered_df_sublist
  · rfl

/-- `yearly_counts` (app.py lines 119–124): group the filtered table by
`Year`, count rows per group, order ascending by year
(`groupby("Year").size()` sorts the group keys; the trailing
`sort_values("Year")` keeps that order). -/
def yearly_counts (df : List Record) : List (Int × Nat) :=
  (List.insertionSort (fun a b => a ≤ b) (yearsOf df).dedup).map
    (fun y => (y, (df.filter fun r => decide (r.year = y)).length))

theorem yearly_counts_fst (df : List Record) :
    (yearly_counts df).map Prod.fst =
      List.insertionSort (fun a b => a ≤ b) (yearsOf df).dedup := by
  unfold yearly_counts
  rw [List.map_map]
  exact List.map_id _

theorem sum_countP_years (ys : List Int) :
    ∀ df : List Record, ys.Nodup → (∀ r ∈ df, r.year ∈ ys) →
      (ys.map fun y => df.countP fun r => decide (r.year = y)).sum = df.length := by
  induction ys with
  | nil =>
    intro df _ hcov
    have hdf : df = [] := by
      cases df with
      | nil => rfl
      | cons r l => exact absurd (hcov r (List.mem_cons_self r l)) (List.not_mem_nil _)
    subst hdf
    rfl
  | cons y ys ih =>
    intro df hnd hcov
    have hy : y ∉ ys := (List.nodup_cons.mp hnd).1
    have hnd' : ys.Nodup := (List.nodup_cons.mp hnd).2
    set df' := df.filter (fun r => !decide (r.year = y)) with hdf'
    have hcov' : ∀ r ∈ df', r.year ∈ ys := by
      intro r hr
      rw [hdf', List.mem_filter] at hr
      have h2 : ¬r.year = y := by simpa using hr.2
      rcases List.mem_cons.mp (hcov r hr.1) with h | h
      · exact absurd h h2
      · exact h
    have hmain := ih df' hnd' hcov'
    have hstep : ∀ y' ∈ ys,
        (df'.countP fun r => decide (r.year = y')) =
          (df.countP fun r => decide (r.year = y')) := by
      intro y' hy'
      have hne : y' ≠ y := fun h => hy (h ▸ hy')
      rw [hdf', List.countP_filter]
      apply List.countP_congr
      intro r _
      simp only [Bool.and_eq_true, decide_eq_true_eq, Bool.not_eq_true',
        decide_eq_false_iff_not]
      constructor
      · rintro ⟨h, _⟩
        exact h
      · intro h
        exact ⟨h, by rw [h]; exact hne⟩
    have hmap : (ys.map fun y' => df'.countP fun r => decide (r.year = y')) =
        ys.map fun y' => df.countP fun r => decide (r.year = y') :=
      List.map_congr_left hstep
    have hsplit : (df.countP fun r => decide (r.year = y)) + df'.length = df.length := by
      rw [hdf', ← List.countP_eq_length_filter]
      rw [List.length_eq_countP_add_countP (p := fun r => decide (r.year = y)) df]
      congr 1
      apply List.countP_congr
      intro r _
      simp
    rw [List.map_cons, List.sum_cons, ← hmap, hmain]
    exact hsplit

/-- C3: the yearly aggregate has exactly one entry per distinct year
present (its keys are the distinct years of the table, without
duplicates), each entry's count is the number of rows with that year, the
entries are ordered ascending by year, and the empty table yields the
empty sequence. -/
theorem yearly_aggregate_shape (df : List Record) :
    ((yearly_counts df).map Prod.fst).Nodup ∧
      (∀ y : Int, y ∈ (yearly_counts df).map Prod.fst ↔ y ∈ yearsOf df) ∧
      (∀ p ∈ yearly_counts df,
        p.2 = (df.filter fun r => decide (r.year = p.1)).length) ∧
      ((yearly_counts df).map Prod.fst).Sorted (fun a b => a ≤ b) ∧
      yearly_counts [] = [] := by
  refine ⟨?_, ?_, ?_, ?_, rfl⟩
  · rw [yearly_counts_fst]
    exact ((List.perm_insertionSort _ _).nodup_iff).mpr (List.nodup_dedup _)
  · intro y
    rw [yearly_counts_fst, (List.perm_insertionSort _ _).mem_iff, List.mem_dedup]
  · intro p hp
    unfold yearly_counts at hp
    rcases List.mem_map.mp hp with ⟨y, _, rfl⟩
    rfl
  · rw [yearly_counts_fst]
    exact List.sorted_insertionSort _ _

/-- The spec's example scenario 1: years `[2018, 2019, 2019, 2020]`. -/
def exampleDf : List Record :=
  [⟨2018, some "THEFT", none, none⟩, ⟨2019, some "THEFT", none, none⟩,
    ⟨2019, some "BATTERY", none, none⟩, ⟨2020, none, none, none⟩]

theorem yearly_aggregate_shape_witness :
    ((2019 : Int), 2) ∈ yearly_counts (filtered_df exampleDf 2019 2019 "All") ∧
      ((2019 : Int), 2).2 =
        ((filtered_df exampleDf 2019 2019 "All").filter fun r =>
          decide (r.year = ((2019 : Int), 2).1)).length :=
  ⟨by decide,
    (yearly_aggregate_shape (filtered_df exampleDf 2019 2019 "All")).2.2.1
      ((2019 : Int), 2) (by decide)⟩

/-- C4: the counts of the yearly aggregate sum to the number of rows of
the table it was computed from. -/
theorem count_consistency (df : List Record) :
    ((yearly_counts df).map Prod.snd).sum = df.length := by
  unfold yearly_counts
  rw [List.map_map]
  have hperm :
      List.Perm (List.insertionSort (fun a b => a ≤ b) (yearsOf df).dedup)
        (yearsOf df).dedup :=
    List.perm_insertionSort _ _
  have hperm2 :=
    (hperm.map fun y => (df.filter fun r => decide (r.year = y)).length).sum_eq
  have hcomp :
      (Prod.snd ∘ fun y => (y, (df.filter fun r => decide (r.year = y)).length)) =
        fun y => (df.filter fun r => decide (r.year = y)).length := rfl
  rw [hcomp, hperm2]
  have hsum := sum_countP_years (yearsOf df).dedup df (List.nodup_dedup _)
    (fun r hr => List.mem_dedup.mpr (List.mem_map.mpr ⟨r, hr, rfl⟩))
  simpa [List.countP_eq_length_filter] using hsum

/-- The coordinate pair of a row, when both coordinates are present
(`dropna` on the selected `lat`/`lon` columns keeps exactly these rows). -/
def coordsOf (r : Record) : Option (Int × Int) :=
  match r.latitude, r.longitude with
  | some la, some lo => some (la, lo)
  | _, _ => none

/-- The `lat`/`lon` table after column selection, rename and `dropna`
(app.py lines 145–149). -/
def nonNullCoords (df : List Record) : List (Int × Int) := df.filterMap coordsOf

/-- `MAP_SAMPLE_SIZE` (app.py line 144). -/
def MAP_SAMPLE_SIZE : Nat := 50000

/-- One step of the seeded pseudo-random generator modelling the
`random_state=42` generator of `DataFrame.sample`. -/
def lcgStep (s : Nat) : Nat := (1103515245 * s + 12345) % 2147483648

/-- Seeded selection without replacement: draw `n` rows, each step picking
a pseudo-random remaining index. -/
def sampleAux {α : Type} : Nat → Nat → List α → List α
  | 0, _, _ => []
  | _ + 1, _, [] => []
  | n + 1, s, a :: as =>
    (a :: as).get ⟨s % (a :: as).length, Nat.mod_lt _ (Nat.succ_pos _)⟩ ::
      sampleAux n (lcgStep s) ((a :: as).eraseIdx (s % (a :: as).length))

/-- Model of `DataFrame.sample(n, random_state=seed)`: a pure,
seed-deterministic draw of `n` rows without replacement. -/
def pdSample {α : Type} (n seed : Nat) (l : List α) : List α := sampleAux n seed l

/-- `map_df` (app.py lines 144–152): select `Latitude`/`Longitude`, drop
rows with a missing coordinate, and when more than `MAP_SAMPLE_SIZE` rows
remain, sample exactly `MAP_SAMPLE_SIZE` of them with `random_state=42`. -/
def map_df (df : List Record) : List (Int × Int) :=
  let m := nonNullCoords df
  if m.length > MAP_SAMPLE_SIZE then pdSample MAP_SAMPLE_SIZE 42 m else m

theorem length_sampleAux {α : Type} :
    ∀ (n s : Nat) (l : List α), n ≤ l.length → (sampleAux n s l).length = n := by
  intro n
  induction n with
  | zero => intro s l _; rfl
  | succ n ih =>
    intro s l hn
    cases l with
    | nil => exact absurd hn (by simp)
    | cons a as =>
      show (sampleAux n (lcgStep s) ((a :: as).eraseIdx (s % (a :: as).length))).length + 1 =
        n + 1
      have hlt : s % (a :: as).length < (a :: as).length :=
        Nat.mod_lt _ (Nat.succ_pos _)
      have hlen := List.length_eraseIdx_of_lt hlt
      rw [ih _ _ (by omega)]

theorem sampleAux_subset {α : Type} :
    ∀ (n s : Nat) (l : List α) (x : α), x ∈ sampleAux n s l → x ∈ l := by
  intro n
  induction n with
  | zero => intro s l x h; exact absurd h (List.not_mem_nil _)
  | succ n ih =>
    intro s l x h
    cases l with
    | nil => exact absurd h (List.not_mem_nil _)
    | cons a as =>
      rcases List.mem_cons.mp h with h | h
      · exact h ▸ List.get_mem _ _ _
      · exact (List.eraseIdx_sublist (a :: as) (s % (a :: as).length)).subset (ih _ _ _ h)

theorem coordsOf_eq_some (r : Record) (p : Int × Int) :
    coordsOf r = some p ↔ r.latitude = some p.1 ∧ r.longitude = some p.2 := by
  unfold coordsOf
  rcases hla : r.latitude with _ | la <;> rcases hlo : r.longitude with _ | lo <;>
    simp_all [Prod.ext_iff, eq_comm]

theorem map_df_subset (df : List Record) (p : Int × Int) (hp : p ∈ map_df df) :
    p ∈ nonNullCoords df := by
  unfold map_df at hp
  by_cases h : (nonNullCoords df).length > MAP_SAMPLE_SIZE
  · rw [if_pos h] at hp
    exact sampleAux_subset _ _ _ _ hp
  · rwa [if_neg h] at hp

/-- C5: the geo sample only contains coordinate pairs of rows whose
latitude and longitude are both present; when at most `MAP_SAMPLE_SIZE`
such rows exist the sample is exactly those rows in unchanged order;
otherwise it has exactly `MAP_SAMPLE_SIZE` rows; in all cases its length
is at most `min` of the two. -/
theorem geo_sample_bound (df : List Record) :
    ((nonNullCoords df).length ≤ MAP_SAMPLE_SIZE → map_df df = nonNullCoords df) ∧
      (MAP_SAMPLE_SIZE < (nonNullCoords df).length →
        (map_df df).length = MAP_SAMPLE_SIZE) ∧
      (map_df df).length ≤ min (nonNullCoords df).length MAP_SAMPLE_SIZE ∧
      ∀ p ∈ map_df df, ∃ r ∈ df, r.latitude = some p.1 ∧ r.longitude = some p.2 := by
  refine ⟨?_, ?_, ?_, ?_⟩
  · intro h
    unfold map_df
    rw [if_neg (by omega)]
  · intro h
    unfold map_df
    rw [if_pos (by omega)]
    exact length_sampleAux _ _ _ (Nat.le_of_lt h)
  · by_cases h : (nonNullCoords df).length > MAP_SAMPLE_SIZE
    · unfold map_df
      rw [if_pos h]
      rw [show pdSample MAP_SAMPLE_SIZE 42 (nonNullCoords df) =
        sampleAux MAP_SAMPLE_SIZE 42 (nonNullCoords df) from rfl]
      rw [length_sampleAux _ _ _ (Nat.le_of_lt h)]
      omega
    · unfold map_df
      rw [if_neg h]
      omega
  · intro p hp
    rcases List.mem_filterMap.mp (map_df_subset df p hp) with ⟨r, hr, hco⟩
    exact ⟨r, hr, (coordsOf_eq_some r p).mp hco⟩

/-- A one-row table with coordinates, used to instantiate theorems. -/
def geoDf : List Record := [⟨2019, some "THEFT", some 41, some (-87)⟩]

theorem geo_sample_bound_witness :
    (nonNullCoords geoDf).length ≤ MAP_SAMPLE_SIZE ∧ map_df geoDf = nonNullCoords geoDf :=
  ⟨by decide, (geo_sample_bound geoDf).1 (by decide)⟩

/-- C6: the geo sample is deterministic: two runs on the same filtered
input (identical order and content) produce identical samples — the
`random_state=42` generator is fixed, so the draw is a pure function of
the input rows. -/
theorem geo_sample_deterministic (df₁ df₂ : List Record) (h : df₁ = df₂) :
    map_df df₁ = map_df df₂ := by rw [h]

theorem geo_sample_deterministic_witness : map_df geoDf = map_df geoDf :=
  geo_sample_deterministic geoDf geoDf rfl

/-- C10: every point of the geo sample of a filtered table originates
from a row of that filtered table, hence from a row whose year is within
the selected range and whose category matches the active filter when one
is set. -/
theorem geo_sample_from_filtered (df : List Record) (a b : Int) (c : String)
    (p : Int × Int) (hp : p ∈ map_df (filtered_df df a b c)) :
    ∃ r ∈ filtered_df df a b c,
      r.latitude = some p.1 ∧ r.longitude = some p.2 ∧
        a ≤ r.year ∧ r.year ≤ b ∧ (c = "All" ∨ r.primaryType = some c) := by
  rcases List.mem_filterMap.mp (map_df_subset _ p hp) with ⟨r, hr, hco⟩
  have hco' := (coordsOf_eq_some r p).mp hco
  have hmf := (mem_filtered_df df a b c r).mp hr
  exact ⟨r, hr, hco'.1, hco'.2, hmf.2.1, hmf.2.2.1, hmf.2.2.2⟩

theorem geo_sample_from_filtered_witness :
    ((41 : Int), (-87 : Int)) ∈ map_df (filtered_df geoDf 2019 2019 "THEFT") ∧
      ∃ r ∈ filtered_df geoDf 2019 2019 "THEFT",
        r.latitude = some (41 : Int) ∧ r.longitude = some (-87 : Int) ∧
          (2019 : Int) ≤ r.year ∧ r.year ≤ 2019 ∧
          ("THEFT" = "All" ∨ r.primaryType = some "THEFT") :=
  ⟨by decide,
    geo_sample_from_filtered geoDf 2019 2019 "THEFT" (41, -87) (by decide)⟩

/-- The non-null `Primary Type` values of a table, in row order
(pandas `value_counts` skips NaN cells). -/
def catList (df : List Record) : List String := df.filterMap (·.primaryType)

/-- `Series.value_counts()`: one `(value, count)` entry per distinct
non-null category, ordered by descending count. -/
def value_counts (df : List Record) : List (String × Nat) :=
  List.insertionSort (fun a b : String × Nat => b.2 ≤ a.2)
    ((catList df).dedup.map fun c => (c, (catList df).count c))

/-- `top_crimes` (app.py lines 159–167): the first 5 entries of
`value_counts` (`.head(5)`). -/
def top_crimes (df : List Record) : List (String × Nat) := (value_counts df).take 5

theorem value_counts_perm (df : List Record) :
    List.Perm (value_counts df)
      ((catList df).dedup.map fun c => (c, (catList df).count c)) :=
  List.perm_insertionSort _ _

theorem mem_value_counts (df : List Record) (p : String × Nat) :
    p ∈ value_counts df ↔ p.1 ∈ (catList df).dedup ∧ p.2 = (catList df).count p.1 := by
  rw [(value_counts_perm df).mem_iff, List.mem_map]
  constructor
  · rintro ⟨c, hc, rfl⟩
    exact ⟨hc, rfl⟩
  · rintro ⟨h1, h2⟩
    exact ⟨p.1, h1, by rw [← h2]⟩

theorem value_counts_sorted (df : List Record) :
    (value_counts df).Sorted (fun a b : String × Nat => b.2 ≤ a.2) := by
  haveI : IsTotal (String × Nat) (fun a b => b.2 ≤ a.2) :=
    ⟨fun a b => Nat.le_total b.2 a.2⟩
  haveI : IsTrans (String × Nat) (fun a b => b.2 ≤ a.2) :=
    ⟨fun _ _ _ h1 h2 => Nat.le_trans h2 h1⟩
  exact List.sorted_insertionSort _ _

/-- C7: the top-categories view counts occurrences of `Primary Type` with
null cells excluded, has at most 5 entries, is ordered by descending
count, and every returned count is at least the count of any category not
returned. -/
theorem top_k_bound (df : List Record) :
    (top_crimes df).length ≤ 5 ∧
      (∀ p ∈ top_crimes df, p.1 ∈ catList df ∧ p.2 = (catList df).count p.1) ∧
      (top_crimes df).Sorted (fun a b : String × Nat => b.2 ≤ a.2) ∧
      ∀ c : String, c ∈ catList df → c ∉ (top_crimes df).map Prod.fst →
        ∀ p ∈ top_crimes df, (catList df).count c ≤ p.2 := by
  refine ⟨?_, ?_, ?_, ?_⟩
  · unfold top_crimes
    rw [List.length_take]
    omega
  · intro p hp
    have hm := (mem_value_counts df p).mp (List.mem_of_mem_take hp)
    exact ⟨List.mem_dedup.mp hm.1, hm.2⟩
  · exact (value_counts_sorted df).sublist (List.take_sublist _ _)
  · intro c hc hnot p hp
    have hcv : (c, (catList df).count c) ∈ value_counts df :=
      (mem_value_counts df _).mpr ⟨List.mem_dedup.mpr hc, rfl⟩
    have hsorted := value_counts_sorted df
    rw [← List.take_append_drop 5 (value_counts df)] at hsorted hcv
    have hdrop : (c, (catList df).count c) ∈ (value_counts df).drop 5 := by
      rcases List.mem_append.mp hcv with h | h
      · exact absurd (List.mem_map.mpr ⟨_, h, rfl⟩) hnot
      · exact h
    exact (List.pairwise_append.mp hsorted).2.2 p hp _ hdrop

/-- Six distinct categories, one row each: the sixth is outside the top 5. -/
def topDf : List Record :=
  [⟨2018, some "A", none, none⟩, ⟨2018, some "B", none, none⟩,
    ⟨2018, some "C", none, none⟩, ⟨2018, some "D", none, none⟩,
    ⟨2018, some "E", none, none⟩, ⟨2018, some "F", none, none⟩]

theorem top_k_bound_witness :
    ("F" ∈ catList topDf) ∧ ("F" ∉ (top_crimes topDf).map Prod.fst) ∧
      (("A", 1) ∈ top_crimes topDf) ∧
      (catList topDf).count "F" ≤ (("A", 1) : String × Nat).2 :=
  ⟨by decide, by decide, by decide,
    (top_k_bound topDf).2.2.2 "F" (by decide) (by decide) ("A", 1) (by decide)⟩

theorem catList_filter_isSome (df : List Record) :
    catList (df.filter fun r => r.primaryType.isSome) = catList df := by
  induction df with
  | nil => rfl
  | cons r l ih =>
    unfold catList at ih ⊢
    rcases h : r.primaryType with _ | c <;>
      simp [List.filter_cons, List.filterMap_cons, h, ih]

theorem nonNullCoords_filter_isSome (df : List Record) :
    nonNullCoords (df.filter fun r => r.latitude.isSome && r.longitude.isSome) =
      nonNullCoords df := by
  induction df with
  | nil => rfl
  | cons r l ih =>
    unfold nonNullCoords at ih ⊢
    rcases hla : r.latitude with _ | la <;> rcases hlo : r.longitude with _ | lo <;>
      simp [List.filter_cons, List.filterMap_cons, coordsOf, hla, hlo, ih]

/-- C8: rows with a missing category or missing coordinates are not
errors: under the `"All"` sentinel they are retained in the filtered
table whenever their year is in range, while the derived views simply
ignore them — the top-categories view and the map sample are unchanged
when the rows missing the relevant field are dropped beforehand. -/
theorem missing_fields_not_errors (df : List Record) (a b : Int) :
    (∀ r ∈ df, a ≤ r.year → r.year ≤ b → r ∈ filtered_df df a b "All") ∧
      top_crimes df = top_crimes (df.filter fun r => r.primaryType.isSome) ∧
      map_df df = map_df (df.filter fun r => r.latitude.isSome && r.longitude.isSome) := by
  refine ⟨?_, ?_, ?_⟩
  · intro r hr ha hb
    exact (mem_filtered_df df a b "All" r).mpr ⟨hr, ha, hb, Or.inl rfl⟩
  · unfold top_crimes value_counts
    rw [catList_filter_isSome]
  · unfold map_df
    rw [nonNullCoords_filter_isSome]

theorem missing_fields_not_errors_witness :
    (⟨2020, none, none, none⟩ : Record) ∈ exampleDf ∧
      ((2018 : Int) ≤ 2020) ∧ ((2020 : Int) ≤ 2020) ∧
      (⟨2020, none, none, none⟩ : Record) ∈ filtered_df exampleDf 2018 2020 "All" :=
  ⟨by decide, by decide, by decide,
    (missing_fields_not_errors exampleDf 2018 2020).1 ⟨2020, none, none, none⟩
      (by decide) (by decide) (by decide)⟩

/-- C9: when the year slider spans the dataset's full year range
(`min_year = int(df.Year.min())`, `max_year = int(df.Year.max())`,
app.py lines 70–78) and the category is the `"All"` sentinel, the filter
is the identity: the filtered table is the whole dataset. -/
theorem full_range_identity (df : List Record) (lo hi : Int)
    (hlo : (yearsOf df).min? = some lo) (hhi : (yearsOf df).max? = some hi) :
    filtered_df df lo hi "All" = df := by
  rw [filtered_df_eq_filter]
  apply List.filter_eq_self.mpr
  intro r hr
  have hy : r.year ∈ yearsOf df := List.mem_map.mpr ⟨r, hr, rfl⟩
  have h1 : lo ≤ r.year :=
    (List.le_min?_iff (fun _ _ _ => le_min_iff) hlo).mp (le_refl lo) _ hy
  have h2 : r.year ≤ hi :=
    (List.max?_le_iff (fun _ _ _ => max_le_iff) hhi).mp (le_refl hi) _ hy
  simp [matchesFilter, h1, h2]

theorem full_range_identity_witness :
    ((yearsOf exampleDf).min? = some 2018) ∧
      ((yearsOf exampleDf).max? = some 2020) ∧
      filtered_df exampleDf 2018 2020 "All" = exampleDf :=
  ⟨by decide, by decide,
    full_range_identity exampleDf 2018 2020 (by decide) (by decide)⟩

end Dashboard
